import Mathlib

/-!
Verification of the razer-ctl protocol engine: a shallow embedding of
`librazer/src/packet.rs`, `librazer/src/command.rs`, the relevant enums of
`librazer/src/types.rs`, and the feature-gated getter dispatch of
`blade-helper/src/device.rs`, together with theorems about packet framing,
CRC, response correlation, and the command layer's preconditions and wire
traffic (the transport is modelled by a scripted list of responses).
Machine bytes are `Nat` with explicit `% 256` where Rust truncates; fallible
Rust code (including panics, modelled as a dedicated error) returns
`Option`/`Except`.
-/

namespace Razer

/-- Error taxonomy of the library (librazer `RazerError` / blade-helper
`Error`), restricted to the kinds reachable from the embedded code.
`panicked` models a Rust panic (out-of-bounds slice index); `scriptEnded`
models a scripted fake transport running out of responses. -/
inductive Err where
  | responseMismatch
  | commandNotSupported
  | deviceBusy
  | commandFailed
  | commandTimeout
  | unknownStatus (raw : Nat)
  | invalidDataSize
  | invalidValue (value : Nat) (typeName : String)
  | preconditionFailed
  | ensureFailed
  | featureNotSupported (tag : String)
  | other (msg : String)
  | panicked
  | scriptEnded
  deriving DecidableEq, Repr

/-- The 90-byte USB HID feature-report packet of `packet.rs`.  Fields are in
declaration order of the Rust struct; `args` always has length 80 for any
packet produced by `Packet.new` or `Packet.tryFrom`. -/
structure Packet where
  status : Nat
  id : Nat
  remaining_packets : Nat
  protocol_type : Nat
  data_size : Nat
  command_class : Nat
  command_id : Nat
  args : List Nat
  crc : Nat
  reserved : Nat
  deriving DecidableEq, Repr

/-- Command status bytes (`CommandStatus` in packet.rs). -/
def CommandStatus.New : Nat := 0x00
def CommandStatus.Busy : Nat := 0x01
def CommandStatus.Successful : Nat := 0x02
def CommandStatus.Failure : Nat := 0x03
def CommandStatus.Timeout : Nat := 0x04
def CommandStatus.NotSupported : Nat := 0x05

/-- The byte sequence XOR-ed by `Packet::calculate_crc`: the two little-endian
bytes of `remaining_packets`, then `protocol_type`, `data_size`,
`command_class`, `command_id`, then all 80 args bytes. -/
def Packet.crcBytes (p : Packet) : List Nat :=
  p.remaining_packets % 256 :: p.remaining_packets / 256 % 256 ::
  p.protocol_type :: p.data_size :: p.command_class :: p.command_id :: p.args

/-- `Packet::calculate_crc`: successive XOR over `crcBytes`, starting at 0. -/
def Packet.calculate_crc (p : Packet) : Nat :=
  p.crcBytes.foldl Nat.xor 0

/-- `Packet::new(command, args)`.  The Rust function copies `args` into an
80-byte buffer via `args_buffer[..args.len()].copy_from_slice(args)`, which
panics when `args.len() > 80` (modelled as `none`).  `id` is drawn from
`rand::thread_rng()`; here it is an explicit parameter. -/
def Packet.new (command : Nat) (args : List Nat) (id : Nat) : Option Packet :=
  if args.length ≤ 80 then
    let args_buffer := args.map (fun b => b % 256) ++ List.replicate (80 - args.length) 0
    let p : Packet :=
      { status := CommandStatus.New
        id := id % 256
        remaining_packets := 0x0000
        protocol_type := 0x00
        data_size := args.length
        command_class := command / 256 % 256
        command_id := command % 256
        args := args_buffer
        crc := 0x00
        reserved := 0x00 }
    some { p with crc := p.calculate_crc }
  else none

/-- `Packet::get_args`: `&self.args[..self.data_size as usize]`.  The slice
panics (modelled as `none`) when `data_size` exceeds the 80-byte buffer. -/
def Packet.get_args (p : Packet) : Option (List Nat) :=
  if p.data_size ≤ p.args.length then some (p.args.take p.data_size) else none

/-- `response.get_args()[i]` as it appears throughout command.rs: a panic
(out-of-bounds for either the slice or the index) is `Err.panicked`. -/
def Packet.argAt (p : Packet) (i : Nat) : Except Err Nat :=
  match p.get_args with
  | none => Except.error Err.panicked
  | some l =>
    match l.get? i with
    | none => Except.error Err.panicked
    | some v => Except.ok v

/-- `Packet::ensure_matches_report`: the response `p` is validated against the
original `report`: (1) `(command_class, command_id, id)` must match, (2)
`remaining_packets` must match unless the command is `0x0792` or `0x078f`,
(3) the status byte is decoded. -/
def Packet.ensure_matches_report (p : Packet) (report : Packet) : Except Err Packet :=
  if (report.command_class, report.command_id, report.id) =
      (p.command_class, p.command_id, p.id) then
    if p.remaining_packets = report.remaining_packets ∨
        (p.command_class, p.command_id) = (0x07, 0x92) ∨
        (p.command_class, p.command_id) = (0x07, 0x8f) then
      if p.status = CommandStatus.Successful then Except.ok p
      else if p.status = CommandStatus.NotSupported then Except.error Err.commandNotSupported
      else if p.status = CommandStatus.Busy then Except.error Err.deviceBusy
      else if p.status = CommandStatus.Failure then Except.error Err.commandFailed
      else if p.status = CommandStatus.Timeout then Except.error Err.commandTimeout
      else Except.error (Err.unknownStatus p.status)
    else Except.error Err.responseMismatch
  else Except.error Err.responseMismatch

/-- `impl From<&Packet> for Vec<u8>`: bincode writes the fields in declaration
order with fixed-width little-endian integers: 90 bytes total. -/
def Packet.serialize (p : Packet) : List Nat :=
  p.status % 256 :: p.id % 256 ::
  p.remaining_packets % 256 :: p.remaining_packets / 256 % 256 ::
  p.protocol_type % 256 :: p.data_size % 256 ::
  p.command_class % 256 :: p.command_id % 256 ::
  (p.args.map (fun b => b % 256) ++ [p.crc % 256, p.reserved % 256])

/-- `impl TryFrom<&[u8]> for Packet`: fails with the invalid-data-size error
unless the input is exactly `size_of::<Packet>() = 90` bytes, then decodes
the fields in order.  No other validation (no CRC check, no `data_size`
bound) is performed. -/
def Packet.tryFrom (data : List Nat) : Except Err Packet :=
  if data.length = 90 then
    Except.ok
      { status := data.getD 0 0
        id := data.getD 1 0
        remaining_packets := data.getD 2 0 + 256 * data.getD 3 0
        protocol_type := data.getD 4 0
        data_size := data.getD 5 0
        command_class := data.getD 6 0
        command_id := data.getD 7 0
        args := (data.drop 8).take 80
        crc := data.getD 88 0
        reserved := data.getD 89 0 }
  else Except.error Err.invalidDataSize

/-! Typed enums of `types.rs` with their exact wire discriminants. -/

/-- `PerfMode` (Balanced = 0, Silent = 5, Custom = 4). -/
inductive PerfMode where
  | Balanced
  | Silent
  | Custom
  deriving DecidableEq, Repr

def PerfMode.toByte : PerfMode → Nat
  | .Balanced => 0
  | .Silent => 5
  | .Custom => 4

def PerfMode.tryFrom (v : Nat) : Except Err PerfMode :=
  match v with
  | 0 => Except.ok .Balanced
  | 5 => Except.ok .Silent
  | 4 => Except.ok .Custom
  | _ => Except.error (Err.invalidValue v "PerformanceMode")

/-- `FanMode` (Auto = 0, Manual = 1). -/
inductive FanMode where
  | Auto
  | Manual
  deriving DecidableEq, Repr

def FanMode.toByte : FanMode → Nat
  | .Auto => 0
  | .Manual => 1

def FanMode.tryFrom (v : Nat) : Except Err FanMode :=
  match v with
  | 0 => Except.ok .Auto
  | 1 => Except.ok .Manual
  | _ => Except.error (Err.invalidValue v "FanMode")

/-- `Cluster` (Cpu = 0x01, Gpu = 0x02). -/
inductive Cluster where
  | Cpu
  | Gpu
  deriving DecidableEq, Repr

def Cluster.toByte : Cluster → Nat
  | .Cpu => 0x01
  | .Gpu => 0x02

/-- `FanZone` (Zone1 = 0x01, Zone2 = 0x02). -/
inductive FanZone where
  | Zone1
  | Zone2
  deriving DecidableEq, Repr

def FanZone.toByte : FanZone → Nat
  | .Zone1 => 0x01
  | .Zone2 => 0x02

/-- `CpuBoost` (Low = 0 .. Overclock = 4). -/
inductive CpuBoost where
  | Low
  | Medium
  | High
  | Boost
  | Overclock
  deriving DecidableEq, Repr

def CpuBoost.toByte : CpuBoost → Nat
  | .Low => 0
  | .Medium => 1
  | .High => 2
  | .Boost => 3
  | .Overclock => 4

def CpuBoost.tryFrom (v : Nat) : Except Err CpuBoost :=
  match v with
  | 0 => Except.ok .Low
  | 1 => Except.ok .Medium
  | 2 => Except.ok .High
  | 3 => Except.ok .Boost
  | 4 => Except.ok .Overclock
  | _ => Except.error (Err.invalidValue v "CpuBoost")

/-- `GpuBoost` (Low = 0, Medium = 1, High = 2). -/
inductive GpuBoost where
  | Low
  | Medium
  | High
  deriving DecidableEq, Repr

def GpuBoost.toByte : GpuBoost → Nat
  | .Low => 0
  | .Medium => 1
  | .High => 2

def GpuBoost.tryFrom (v : Nat) : Except Err GpuBoost :=
  match v with
  | 0 => Except.ok .Low
  | 1 => Except.ok .Medium
  | 2 => Except.ok .High
  | _ => Except.error (Err.invalidValue v "GpuBoost")

/-- `LogoMode` (no wire discriminants; encoded by two commands). -/
inductive LogoMode where
  | Off
  | Breathing
  | Static
  deriving DecidableEq, Repr

/-- `MaxFanSpeedMode` (Enable = 2, Disable = 0). -/
inductive MaxFanSpeedMode where
  | Enable
  | Disable
  deriving DecidableEq, Repr

def MaxFanSpeedMode.toByte : MaxFanSpeedMode → Nat
  | .Enable => 2
  | .Disable => 0

def MaxFanSpeedMode.tryFrom (v : Nat) : Except Err MaxFanSpeedMode :=
  match v with
  | 0x02 => Except.ok .Enable
  | 0x00 => Except.ok .Disable
  | _ => Except.error (Err.invalidValue v "MaxFanSpeedMode")

/-- `LightsAlwaysOn` (Enable = 0x03, Disable = 0x00). -/
inductive LightsAlwaysOn where
  | Enable
  | Disable
  deriving DecidableEq, Repr

def LightsAlwaysOn.toByte : LightsAlwaysOn → Nat
  | .Enable => 0x03
  | .Disable => 0x00

def LightsAlwaysOn.tryFrom (v : Nat) : Except Err LightsAlwaysOn :=
  match v with
  | 0 => Except.ok .Disable
  | 3 => Except.ok .Enable
  | _ => Except.error (Err.invalidValue v "LightsAlwaysOn")

/-- `BatteryCare` (Disable = 0x50, Enable = 0xd0). -/
inductive BatteryCare where
  | Disable
  | Enable
  deriving DecidableEq, Repr

def BatteryCare.toByte : BatteryCare → Nat
  | .Disable => 0x50
  | .Enable => 0xd0

def BatteryCare.tryFrom (v : Nat) : Except Err BatteryCare :=
  match v with
  | 0x50 => Except.ok .Disable
  | 0xd0 => Except.ok .Enable
  | _ => Except.error (Err.invalidValue v "BatteryCare")

/-! Command codes (`mod cmd` in command.rs). -/

def cmd.SET_PERF_MODE : Nat := 0x0d02
def cmd.GET_PERF_MODE : Nat := 0x0d82
def cmd.SET_BOOST : Nat := 0x0d07
def cmd.GET_BOOST : Nat := 0x0d87
def cmd.SET_FAN_RPM : Nat := 0x0d01
def cmd.GET_FAN_RPM : Nat := 0x0d81
def cmd.SET_MAX_FAN_SPEED : Nat := 0x070f
def cmd.GET_MAX_FAN_SPEED : Nat := 0x078f
def cmd.SET_LOGO_POWER : Nat := 0x0300
def cmd.GET_LOGO_POWER : Nat := 0x0380
def cmd.SET_LOGO_MODE : Nat := 0x0302
def cmd.GET_LOGO_MODE : Nat := 0x0382
def cmd.SET_KBD_BRIGHTNESS : Nat := 0x0303
def cmd.GET_KBD_BRIGHTNESS : Nat := 0x0383
def cmd.SET_LIGHTS_ALWAYS_ON : Nat := 0x0004
def cmd.GET_LIGHTS_ALWAYS_ON : Nat := 0x0084
def cmd.SET_BATTERY_CARE : Nat := 0x0712
def cmd.GET_BATTERY_CARE : Nat := 0x0792

/-! The scripted transport.  `Device::send` builds a packet, performs the HID
round trip and returns the response already validated by
`ensure_matches_report`.  For the command-layer claims the transport is a
fake: a script of pre-validated results, consumed one per send, while every
send is recorded (command code and argument bytes) in a trace. -/

/-- One packet issued on the wire, as observed by the fake transport. -/
structure Sent where
  command : Nat
  args : List Nat
  deriving DecidableEq, Repr

deriving instance DecidableEq for Except

/-- State of the scripted transport: the not-yet-consumed script and the
trace of issued packets. -/
structure DeviceST where
  script : List (Except Err Packet)
  trace : List Sent
  deriving DecidableEq, Repr

/-- The command-layer monad: explicit state passing over the scripted
transport, with `Except Err` results. -/
def M (α : Type) : Type := DeviceST → Except Err α × DeviceST

def M.pure {α : Type} (a : α) : M α := fun s => (Except.ok a, s)

def M.bind {α β : Type} (x : M α) (f : α → M β) : M β := fun s =>
  match x s with
  | (Except.ok a, s1) => f a s1
  | (Except.error e, s1) => (Except.error e, s1)

def M.fail {α : Type} (e : Err) : M α := fun s => (Except.error e, s)

def M.ofExcept {α : Type} (x : Except Err α) : M α := fun s => (x, s)

/-- `Device::send` on the scripted transport: the sent packet is recorded,
the next scripted (already validated) result is returned. -/
def Device.send (command : Nat) (args : List Nat) : M Packet := fun s =>
  match s.script with
  | [] => (Except.error Err.scriptEnded, ⟨[], s.trace ++ [⟨command, args⟩]⟩)
  | r :: rest => (r, ⟨rest, s.trace ++ [⟨command, args⟩]⟩)

/-! The command layer (`command.rs`). -/

/-- `send_command`: send, then `ensure!(response.get_args().starts_with(args))`. -/
def send_command (command : Nat) (args : List Nat) : M Packet :=
  M.bind (Device.send command args) fun response =>
    match response.get_args with
    | none => M.fail Err.panicked
    | some l => if args.isPrefixOf l then M.pure response else M.fail Err.ensureFailed

/-- The per-zone body of `get_perf_mode`: decode `args[2]` as perf mode and
`args[3]` as fan mode of one `0x0d82` response. -/
def decodeZone (r : Packet) : Except Err (PerfMode × FanMode) :=
  match r.argAt 2 with
  | Except.error e => Except.error e
  | Except.ok a2 =>
    match PerfMode.tryFrom a2 with
    | Except.error e => Except.error e
    | Except.ok pm =>
      match r.argAt 3 with
      | Except.error e => Except.error e
      | Except.ok a3 =>
        match FanMode.tryFrom a3 with
        | Except.error e => Except.error e
        | Except.ok fm => Except.ok (pm, fm)

/-- `get_perf_mode`: query both thermal zones with `0x0d82` and require the
two decoded `(PerfMode, FanMode)` pairs to agree. -/
def get_perf_mode : M (PerfMode × FanMode) :=
  M.bind (Device.send cmd.GET_PERF_MODE [0, 1, 0, 0]) fun r1 =>
    M.bind (M.ofExcept (decodeZone r1)) fun p1 =>
      M.bind (Device.send cmd.GET_PERF_MODE [0, 2, 0, 0]) fun r2 =>
        M.bind (M.ofExcept (decodeZone r2)) fun p2 =>
          if p1 = p2 then M.pure p1 else M.fail Err.preconditionFailed

/-- `set_perf_mode_internal`: Manual fan is legal only in Balanced mode, then
`0x0d02` is sent for zones 1 and 2 with `[0x01, zone, perf, fan]`. -/
def set_perf_mode_internal (perf_mode : PerfMode) (fan_mode : FanMode) : M Unit :=
  if fan_mode = FanMode.Manual ∧ perf_mode ≠ PerfMode.Balanced then
    M.fail Err.preconditionFailed
  else
    M.bind (send_command cmd.SET_PERF_MODE [0x01, 1, perf_mode.toByte, fan_mode.toByte])
      fun _ =>
        M.bind (send_command cmd.SET_PERF_MODE [0x01, 2, perf_mode.toByte, fan_mode.toByte])
          fun _ => M.pure ()

/-- `set_boost_internal`: requires the current mode to read back as
`(Custom, Auto)`, then sends `0x0d07` with `[0, cluster, boost]` and checks
the echo. -/
def set_boost_internal (cluster : Cluster) (boost : Nat) : M Unit :=
  M.bind get_perf_mode fun p =>
    if p = (PerfMode.Custom, FanMode.Auto) then
      M.bind (Device.send cmd.SET_BOOST [0, cluster.toByte, boost]) fun response =>
        match response.get_args with
        | none => M.fail Err.panicked
        | some l =>
          if [0, cluster.toByte, boost].isPrefixOf l then M.pure ()
          else M.fail Err.ensureFailed
    else M.fail Err.preconditionFailed

/-- `get_boost_internal`: send `0x0d87` with `[0, cluster, 0]`, require
`args[1] == cluster`, return `args[2]`. -/
def get_boost_internal (cluster : Cluster) : M Nat :=
  M.bind (Device.send cmd.GET_BOOST [0, cluster.toByte, 0]) fun response =>
    M.bind (M.ofExcept (response.argAt 1)) fun a1 =>
      if a1 = cluster.toByte then M.ofExcept (response.argAt 2)
      else M.fail Err.ensureFailed

def set_perf_mode (perf_mode : PerfMode) : M Unit :=
  set_perf_mode_internal perf_mode FanMode.Auto

def set_cpu_boost (boost : CpuBoost) : M Unit :=
  set_boost_internal Cluster.Cpu boost.toByte

def set_gpu_boost (boost : GpuBoost) : M Unit :=
  set_boost_internal Cluster.Gpu boost.toByte

def get_cpu_boost : M CpuBoost :=
  M.bind (get_boost_internal Cluster.Cpu) fun v => M.ofExcept (CpuBoost.tryFrom v)

def get_gpu_boost : M GpuBoost :=
  M.bind (get_boost_internal Cluster.Gpu) fun v => M.ofExcept (GpuBoost.tryFrom v)

/-- `set_fan_rpm`: the RPM must lie in `[2000, 5000]`, the current mode must
read back as `(Balanced, Manual)`, then `0x0d01` is sent for zones 1 and 2
with `[0, zone, rpm / 100]`. -/
def set_fan_rpm (rpm : Nat) : M Unit :=
  if 2000 ≤ rpm ∧ rpm ≤ 5000 then
    M.bind get_perf_mode fun p =>
      if p = (PerfMode.Balanced, FanMode.Manual) then
        M.bind (send_command cmd.SET_FAN_RPM [0, FanZone.Zone1.toByte, rpm / 100 % 256])
          fun _ =>
            M.bind (send_command cmd.SET_FAN_RPM [0, FanZone.Zone2.toByte, rpm / 100 % 256])
              fun _ => M.pure ()
      else M.fail Err.preconditionFailed
  else M.fail Err.preconditionFailed

/-- `get_fan_rpm`: send `0x0d81` with `[0, zone, 0]`, require
`args[1] == zone`, return `args[2] * 100`. -/
def get_fan_rpm (fan_zone : FanZone) : M Nat :=
  M.bind (Device.send cmd.GET_FAN_RPM [0, fan_zone.toByte, 0]) fun response =>
    M.bind (M.ofExcept (response.argAt 1)) fun a1 =>
      if a1 = fan_zone.toByte then
        M.bind (M.ofExcept (response.argAt 2)) fun a2 => M.pure (a2 * 100)
      else M.fail Err.ensureFailed

/-- `set_max_fan_speed_mode`: requires current perf mode Custom, then sends
`0x070f` with `[mode]`. -/
def set_max_fan_speed_mode (mode : MaxFanSpeedMode) : M Unit :=
  M.bind get_perf_mode fun p =>
    if p.1 = PerfMode.Custom then
      M.bind (send_command cmd.SET_MAX_FAN_SPEED [mode.toByte]) fun _ => M.pure ()
    else M.fail Err.preconditionFailed

/-- `get_max_fan_speed_mode`: send `0x078f` with `[0]`, decode `args[0]`.
No feature gate. -/
def get_max_fan_speed_mode : M MaxFanSpeedMode :=
  M.bind (Device.send cmd.GET_MAX_FAN_SPEED [0]) fun response =>
    M.bind (M.ofExcept (response.argAt 0)) fun a0 =>
      M.ofExcept (MaxFanSpeedMode.tryFrom a0)

/-- `set_fan_mode`: requires current perf mode Balanced, then re-sends perf
mode `(Balanced, mode)`. -/
def set_fan_mode (mode : FanMode) : M Unit :=
  M.bind get_perf_mode fun p =>
    if p.1 = PerfMode.Balanced then set_perf_mode_internal PerfMode.Balanced mode
    else M.fail Err.preconditionFailed

/-- `set_logo_power`: `0x0300` with `[1, 4, 0]` for Off, `[1, 4, 1]` otherwise. -/
def set_logo_power (mode : LogoMode) : M Packet :=
  match mode with
  | .Off => send_command cmd.SET_LOGO_POWER [1, 4, 0]
  | .Static => send_command cmd.SET_LOGO_POWER [1, 4, 1]
  | .Breathing => send_command cmd.SET_LOGO_POWER [1, 4, 1]

/-- `set_logo_mode_internal`: `0x0302` with `[1, 4, 0]` for Static,
`[1, 4, 2]` for Breathing; `Off` is rejected (`bail!("Invalid logo mode")`). -/
def set_logo_mode_internal (mode : LogoMode) : M Packet :=
  match mode with
  | .Static => send_command cmd.SET_LOGO_MODE [1, 4, 0]
  | .Breathing => send_command cmd.SET_LOGO_MODE [1, 4, 2]
  | .Off => M.fail (Err.other "Invalid logo mode")

/-- `get_logo_power`: `0x0380` with `[1, 4, 0]`, decode `args[2]`. -/
def get_logo_power : M Bool :=
  M.bind (Device.send cmd.GET_LOGO_POWER [1, 4, 0]) fun response =>
    M.bind (M.ofExcept (response.argAt 2)) fun a2 =>
      match a2 with
      | 0 => M.pure false
      | 1 => M.pure true
      | _ => M.fail (Err.other "Invalid logo power state")

/-- `get_logo_mode_internal`: `0x0382` with `[1, 4, 0]`, decode `args[2]`. -/
def get_logo_mode_internal : M LogoMode :=
  M.bind (Device.send cmd.GET_LOGO_MODE [1, 4, 0]) fun response =>
    M.bind (M.ofExcept (response.argAt 2)) fun a2 =>
      match a2 with
      | 0 => M.pure LogoMode.Static
      | 2 => M.pure LogoMode.Breathing
      | _ => M.fail (Err.other "Invalid logo power state")

def get_logo_mode : M LogoMode :=
  M.bind get_logo_power fun power =>
    match power with
    | true => get_logo_mode_internal
    | false => M.pure LogoMode.Off

/-- `set_logo_mode`: for `Static`/`Breathing` the pattern command is sent
first, then the power command; for `Off` only the power command. -/
def set_logo_mode (mode : LogoMode) : M Unit :=
  if mode ≠ LogoMode.Off then
    M.bind (set_logo_mode_internal mode) fun _ =>
      M.bind (set_logo_power mode) fun _ => M.pure ()
  else
    M.bind (set_logo_power mode) fun _ => M.pure ()

/-- `get_keyboard_brightness`: `0x0383` with `[1, 5, 0]`, require
`args[1] == 5`, return `args[2]`. -/
def get_keyboard_brightness : M Nat :=
  M.bind (Device.send cmd.GET_KBD_BRIGHTNESS [1, 5, 0]) fun response =>
    M.bind (M.ofExcept (response.argAt 1)) fun a1 =>
      if a1 = 5 then M.ofExcept (response.argAt 2)
      else M.fail Err.ensureFailed

def set_keyboard_brightness (brightness : Nat) : M Unit :=
  M.bind (Device.send cmd.SET_KBD_BRIGHTNESS [1, 5, brightness % 256]) fun response =>
    match response.get_args with
    | none => M.fail Err.panicked
    | some l =>
      if [1, 5, brightness % 256].isPrefixOf l then M.pure ()
      else M.fail Err.ensureFailed

/-- `get_lights_always_on`: `0x0084` with `[0, 0]`, decode `args[0]`. -/
def get_lights_always_on : M LightsAlwaysOn :=
  M.bind (Device.send cmd.GET_LIGHTS_ALWAYS_ON [0, 0]) fun response =>
    M.bind (M.ofExcept (response.argAt 0)) fun a0 =>
      M.ofExcept (LightsAlwaysOn.tryFrom a0)

/-- `get_battery_care`: `0x0792` with `[0]`, decode `args[0]`. -/
def get_battery_care : M BatteryCare :=
  M.bind (Device.send cmd.GET_BATTERY_CARE [0]) fun response =>
    M.bind (M.ofExcept (response.argAt 0)) fun a0 =>
      M.ofExcept (BatteryCare.tryFrom a0)

/-! The blade-helper facade (`blade-helper/src/device.rs` / `settings.rs`).
A `BladeDevice` carries its descriptor's feature tags; `supports` is list
membership. -/

/-- `Setting` (settings.rs). -/
inductive Setting where
  | PerfMode
  | CpuBoost
  | GpuBoost
  | FanMode
  | MaxFanSpeed
  | KeyboardBrightness
  | LogoMode
  | BatteryCare
  | LightsAlwaysOn
  deriving DecidableEq, Repr

/-- `SettingValue` (settings.rs). -/
inductive SettingValue where
  | perfModeValue (mode : PerfMode) (fan_mode : FanMode)
  | cpuBoostValue (boost : CpuBoost)
  | gpuBoostValue (boost : GpuBoost)
  | fanValue (mode : FanMode) (rpm : Option Nat)
  | maxFanSpeedValue (mode : MaxFanSpeedMode)
  | keyboardBrightnessValue (brightness : Nat)
  | logoModeValue (mode : LogoMode)
  | batteryCareValue (care : BatteryCare)
  | lightsAlwaysOnValue (lights : LightsAlwaysOn)
  deriving DecidableEq, Repr

/-- `BladeDevice::get_setting`, parameterized by the open device's feature
tags.  Only `KeyboardBrightness`, `LogoMode`, `BatteryCare` and
`LightsAlwaysOn` are gated on `supports`; the other settings dispatch to the
command layer unconditionally. -/
def BladeDevice.get_setting (features : List String) (setting : Setting) : M SettingValue :=
  match setting with
  | .PerfMode =>
      M.bind get_perf_mode fun p => M.pure (SettingValue.perfModeValue p.1 p.2)
  | .CpuBoost =>
      M.bind get_cpu_boost fun b => M.pure (SettingValue.cpuBoostValue b)
  | .GpuBoost =>
      M.bind get_gpu_boost fun b => M.pure (SettingValue.gpuBoostValue b)
  | .FanMode =>
      M.bind get_perf_mode fun p =>
        if p.2 = FanMode.Manual then
          M.bind (get_fan_rpm FanZone.Zone1) fun rpm =>
            M.pure (SettingValue.fanValue p.2 (some rpm))
        else M.pure (SettingValue.fanValue p.2 none)
  | .MaxFanSpeed =>
      M.bind get_max_fan_speed_mode fun m => M.pure (SettingValue.maxFanSpeedValue m)
  | .KeyboardBrightness =>
      if "kbd-backlight" ∈ features then
        M.bind get_keyboard_brightness fun b =>
          M.pure (SettingValue.keyboardBrightnessValue b)
      else M.fail (Err.featureNotSupported "kbd-backlight")
  | .LogoMode =>
      if "lid-logo" ∈ features then
        M.bind get_logo_mode fun m => M.pure (SettingValue.logoModeValue m)
      else M.fail (Err.featureNotSupported "lid-logo")
  | .BatteryCare =>
      if "battery-care" ∈ features then
        M.bind get_battery_care fun c => M.pure (SettingValue.batteryCareValue c)
      else M.fail (Err.featureNotSupported "battery-care")
  | .LightsAlwaysOn =>
      if "lights-always-on" ∈ features then
        M.bind get_lights_always_on fun l => M.pure (SettingValue.lightsAlwaysOnValue l)
      else M.fail (Err.featureNotSupported "lights-always-on")

/-- The settings whose `get_setting` arm is feature-gated in the source, with
the tag each arm checks; `none` for the ungated arms. -/
def Setting.gatedTag : Setting → Option String
  | .KeyboardBrightness => some "kbd-backlight"
  | .LogoMode => some "lid-logo"
  | .BatteryCare => some "battery-care"
  | .LightsAlwaysOn => some "lights-always-on"
  | _ => none

/-! Concrete fixtures used by witnesses and counterexamples. -/

/-- A response packet with the given status, id, command bytes,
remaining_packets and argument bytes (padded to the 80-byte buffer). -/
def mkResponse (stat i cc cid rp : Nat) (a : List Nat) : Packet :=
  { status := stat
    id := i
    remaining_packets := rp
    protocol_type := 0
    data_size := a.length
    command_class := cc
    command_id := cid
    args := a ++ List.replicate (80 - a.length) 0
    crc := 0
    reserved := 0 }

/-- A successful `0x0d82` zone response decoding to the given pair. -/
def zoneResponse (pm : PerfMode) (fm : FanMode) : Packet :=
  mkResponse 2 0 0x0d 0x82 0 [0, 1, pm.toByte, fm.toByte]

/-- A successful echo response for a `set` command with the given args. -/
def echoResponse (cc cid : Nat) (a : List Nat) : Packet :=
  mkResponse 2 0 cc cid 0 a

/-- The packet built by `Packet::new(0x0d02, &[1, 2])` with id 7, spelled
out field by field (crc = 0x0e). -/
def samplePacket : Packet :=
  { status := 0
    id := 7
    remaining_packets := 0
    protocol_type := 0
    data_size := 2
    command_class := 0x0d
    command_id := 0x02
    args := [1, 2] ++ List.replicate 78 0
    crc := 0x0e
    reserved := 0 }

/-- A 90-byte buffer that is all zero except for byte 88 (the CRC slot),
which holds 1: `TryFrom` accepts it although its stored CRC differs from
the XOR of bytes 2..87. -/
def crcMismatchBytes : List Nat := List.replicate 88 0 ++ [1, 0]

/-- The packet `TryFrom` produces from `crcMismatchBytes`. -/
def crcMismatchPacket : Packet :=
  { status := 0
    id := 0
    remaining_packets := 0
    protocol_type := 0
    data_size := 0
    command_class := 0
    command_id := 0
    args := List.replicate 80 0
    crc := 1
    reserved := 0 }

/-- A 90-byte buffer whose `data_size` byte (offset 5) is 90 > 80; the other
bytes describe a successful `0x0792` battery-care response. -/
def oversizedBytes : List Nat :=
  [2, 0, 0, 0, 0, 90, 0x07, 0x92] ++ List.replicate 80 0xd0 ++ [0, 0]

/-- The packet `TryFrom` produces from `oversizedBytes`: its `data_size`
field exceeds the 80-byte args buffer. -/
def oversizedPacket : Packet :=
  { status := 2
    id := 0
    remaining_packets := 0
    protocol_type := 0
    data_size := 90
    command_class := 0x07
    command_id := 0x92
    args := List.replicate 80 0xd0
    crc := 0
    reserved := 0 }

/-! Theorems. -/


theorem tryFrom_shape (b0 b1 b2 b3 b4 b5 b6 b7 c r : Nat) (mid : List Nat)
    (h : mid.length = 80) :
    Packet.tryFrom (b0 :: b1 :: b2 :: b3 :: b4 :: b5 :: b6 :: b7 :: (mid ++ [c, r])) =
      Except.ok { status := b0, id := b1, remaining_packets := b2 + 256 * b3,
                  protocol_type := b4, data_size := b5, command_class := b6,
                  command_id := b7, args := mid, crc := c, reserved := r } := by
  unfold Packet.tryFrom
  rw [if_pos (by simp [h])]
  simp only [Except.ok.injEq, Packet.mk.injEq]
  refine ⟨rfl, rfl, rfl, rfl, rfl, rfl, rfl, ?_, ?_, ?_⟩
  · show (mid ++ [c, r]).take 80 = mid
    rw [← h]
    exact List.take_left mid [c, r]
  · show (mid ++ [c, r]).getD 80 0 = c
    rw [List.getD_append_right _ _ _ _ (by omega)]
    simp [h]
  · show (mid ++ [c, r]).getD 81 0 = r
    rw [List.getD_append_right _ _ _ _ (by omega)]
    simp [h]



theorem list_mod_mod (l : List Nat) :
    (l.map (fun b => b % 256)).map (fun b => b % 256) = l.map (fun b => b % 256) := by
  rw [List.map_map]
  apply List.map_congr_left
  intro b _
  simp only [Function.comp_apply]
  omega

theorem foldl_xor_lt (l : List Nat) (a : Nat) (ha : a < 256)
    (hl : ∀ b ∈ l, b < 256) : l.foldl Nat.xor a < 256 := by
  induction l generalizing a with
  | nil => exact ha
  | cons x xs ih =>
    refine ih _ (Nat.xor_lt_two_pow (n := 8) ha (hl x (by simp))) ?_
    intro b hb
    exact hl b (by simp [hb])

theorem serialize_tryFrom (p : Packet)
    (hargs : p.args.map (fun b => b % 256) = p.args)
    (hlen : p.args.length = 80)
    (hstat : p.status < 256) (hid : p.id < 256)
    (hrp : p.remaining_packets < 65536)
    (hpt : p.protocol_type < 256) (hds : p.data_size < 256)
    (hcc : p.command_class < 256) (hcid : p.command_id < 256)
    (hcrc : p.crc < 256) (hres : p.reserved < 256) :
    p.serialize.length = 90 ∧ Packet.tryFrom p.serialize = Except.ok p := by
  obtain ⟨st, i, rp, pt, ds, cc, cid, ar, c, r⟩ := p
  simp only at hargs hlen hstat hid hrp hpt hds hcc hcid hcrc hres
  constructor
  · simp [Packet.serialize, hlen]
  · show Packet.tryFrom (st % 256 :: i % 256 :: rp % 256 :: rp / 256 % 256 ::
      pt % 256 :: ds % 256 :: cc % 256 :: cid % 256 ::
      (ar.map (fun b => b % 256) ++ [c % 256, r % 256])) =
      Except.ok ⟨st, i, rp, pt, ds, cc, cid, ar, c, r⟩
    rw [tryFrom_shape _ _ _ _ _ _ _ _ _ _ _ (by simp [hlen])]
    simp only [Except.ok.injEq, Packet.mk.injEq]
    refine ⟨by omega, by omega, by omega, by omega, by omega, by omega, by omega,
      hargs, by omega, by omega⟩



theorem calculate_crc_lt (p : Packet)
    (hargs : ∀ b ∈ p.args, b < 256)
    (hpt : p.protocol_type < 256) (hds : p.data_size < 256)
    (hcc : p.command_class < 256) (hcid : p.command_id < 256) :
    p.calculate_crc < 256 := by
  refine foldl_xor_lt _ _ (by omega) ?_
  intro b hb
  simp only [Packet.crcBytes, List.mem_cons] at hb
  rcases hb with rfl | rfl | rfl | rfl | rfl | rfl | hb
  · omega
  · omega
  · omega
  · omega
  · omega
  · omega
  · exact hargs b hb

theorem serialize_getD_88 (p : Packet) (hlen : p.args.length = 80)
    (hcrc : p.crc < 256) :
    p.serialize.getD 88 0 = p.crc := by
  obtain ⟨st, i, rp, pt, ds, cc, cid, ar, c, r⟩ := p
  simp only at hlen hcrc
  show ((ar.map (fun b => b % 256)) ++ [c % 256, r % 256]).getD 80 0 = c
  rw [List.getD_append_right _ _ _ _ (by simp [hlen])]
  simp [hlen, Nat.mod_eq_of_lt hcrc]

theorem serialize_crc_window (p : Packet) (hlen : p.args.length = 80)
    (hargs : p.args.map (fun b => b % 256) = p.args)
    (hpt : p.protocol_type < 256) (hds : p.data_size < 256)
    (hcc : p.command_class < 256) (hcid : p.command_id < 256) :
    (p.serialize.drop 2).take 86 = p.crcBytes := by
  obtain ⟨st, i, rp, pt, ds, cc, cid, ar, c, r⟩ := p
  simp only at hlen hargs hpt hds hcc hcid
  have h80 : (ar.map (fun b => b % 256)).length = 80 := by simp [hlen]
  have hstep : ((Packet.serialize ⟨st, i, rp, pt, ds, cc, cid, ar, c, r⟩).drop 2).take 86 =
      rp % 256 :: rp / 256 % 256 :: pt % 256 :: ds % 256 :: cc % 256 :: cid % 256 ::
        ((ar.map (fun b => b % 256) ++ [c % 256, r % 256]).take 80) := rfl
  rw [hstep]
  show _ = (rp % 256 :: rp / 256 % 256 :: pt :: ds :: cc :: cid :: ar)
  simp only [List.cons.injEq]
  refine ⟨trivial, trivial, by omega, by omega, by omega, by omega, ?_⟩
  rw [← h80, List.take_left, hargs]

theorem newPacketSides (command : Nat) (args : List Nat) (id : Nat) (p : Packet)
    (hlen : args.length ≤ 80) (hnew : Packet.new command args id = some p) :
    p.args.map (fun b => b % 256) = p.args ∧ p.args.length = 80 ∧
    p.status < 256 ∧ p.id < 256 ∧ p.remaining_packets < 65536 ∧
    p.protocol_type < 256 ∧ p.data_size < 256 ∧ p.command_class < 256 ∧
    p.command_id < 256 ∧ p.crc < 256 ∧ p.reserved < 256 ∧
    p.crc = p.calculate_crc := by
  unfold Packet.new at hnew
  rw [if_pos hlen] at hnew
  injection hnew with hp
  subst hp
  have habmap : (List.map (fun b => b % 256) args ++
      List.replicate (80 - args.length) 0).map (fun b => b % 256) =
      List.map (fun b => b % 256) args ++ List.replicate (80 - args.length) 0 := by
    simp [List.map_append, list_mod_mod, List.map_replicate]
  have hab256 : ∀ b ∈ List.map (fun b => b % 256) args ++
      List.replicate (80 - args.length) 0, b < 256 := by
    intro b hb
    simp only [List.mem_append, List.mem_map, List.mem_replicate] at hb
    rcases hb with ⟨a, _, rfl⟩ | ⟨_, rfl⟩
    · omega
    · omega
  have hcrclt : (Packet.calculate_crc
      { status := CommandStatus.New, id := id % 256, remaining_packets := 0,
        protocol_type := 0, data_size := args.length,
        command_class := command / 256 % 256, command_id := command % 256,
        args := List.map (fun b => b % 256) args ++ List.replicate (80 - args.length) 0,
        crc := 0, reserved := 0 }) < 256 := by
    refine calculate_crc_lt _ hab256 (by simp) (by simp; omega) (by simp; omega)
      (by simp; omega)
  refine ⟨habmap, by simp; omega, by simp [CommandStatus.New], by simp; omega,
    by simp, by simp, by simp; omega, by simp; omega, by simp; omega, ?_, by simp, ?_⟩
  · exact hcrclt
  · simp [Packet.calculate_crc, Packet.crcBytes]

/-- C2: for `|args| ≤ 80` the packet built by `new` serializes to exactly 90
bytes and deserializes back to an identical packet (in particular the same
`command_class`, `command_id`, `data_size` and `args_used()`); deserializing
any byte slice whose length is not 90 fails with the invalid-data-size
error. -/
theorem c2_serialize_roundtrip :
    (∀ command args id p, args.length ≤ 80 →
      Packet.new command args id = some p →
      p.serialize.length = 90 ∧ Packet.tryFrom p.serialize = Except.ok p) ∧
    (∀ data : List Nat, data.length ≠ 90 →
      Packet.tryFrom data = Except.error Err.invalidDataSize) := by
  constructor
  · intro command args id p hlen hnew
    obtain ⟨h1, h2, h3, h4, h5, h6, h7, h8, h9, h10, h11, _⟩ :=
      newPacketSides command args id p hlen hnew
    exact serialize_tryFrom p h1 h2 h3 h4 h5 h6 h7 h8 h9 h10 h11
  · intro data hd
    unfold Packet.tryFrom
    rw [if_neg hd]

/-- Witness for C2 at `new(0x0d02, [1, 2])` with id 7, and at the 1-byte
buffer for the failure case. -/
theorem c2_witness :
    (samplePacket.serialize.length = 90 ∧
      Packet.tryFrom samplePacket.serialize = Except.ok samplePacket) ∧
    Packet.tryFrom [0] = Except.error Err.invalidDataSize :=
  ⟨c2_serialize_roundtrip.1 0x0d02 [1, 2] 7 samplePacket (by decide) (by decide),
    c2_serialize_roundtrip.2 [0] (by decide)⟩

/-- C3 counterexample: `TryFrom` performs no CRC validation, so a 90-byte
buffer whose stored CRC byte is wrong decodes to a packet whose serialized
byte 88 differs from the XOR of its serialized bytes 2..87. -/
theorem c3_counterexample :
    Packet.tryFrom crcMismatchBytes = Except.ok crcMismatchPacket ∧
    crcMismatchPacket.serialize.getD 88 0 ≠
      ((crcMismatchPacket.serialize.drop 2).take 86).foldl Nat.xor 0 := by
  decide

/-- C3 amended: for every packet constructed by `Packet::new` (whose CRC
field was computed by `calculate_crc`), the CRC byte at offset 88 of the
90-byte serialization equals the XOR of serialization bytes 2 through 87. -/
theorem c3_amended_crc (command : Nat) (args : List Nat) (id : Nat) (p : Packet)
    (hlen : args.length ≤ 80) (hnew : Packet.new command args id = some p) :
    p.serialize.getD 88 0 = ((p.serialize.drop 2).take 86).foldl Nat.xor 0 := by
  obtain ⟨h1, h2, _, _, _, h6, h7, h8, h9, h10, _, h12⟩ :=
    newPacketSides command args id p hlen hnew
  rw [serialize_getD_88 p h2 h10, serialize_crc_window p h2 h1 h6 h7 h8 h9]
  exact h12

/-- Witness for the amended C3 at `new(0x0d02, [1, 2])` with id 7. -/
theorem c3_witness :
    samplePacket.serialize.getD 88 0 =
      ((samplePacket.serialize.drop 2).take 86).foldl Nat.xor 0 :=
  c3_amended_crc 0x0d02 [1, 2] 7 samplePacket (by decide) (by decide)


/-- C1: `ensure_matches_report` succeeds only when the response's
`(command_class, command_id, id)` triple equals the request's; a differing
triple fails with ResponseMismatch; a matching triple with differing
`remaining_packets` fails with ResponseMismatch unless the command is
`(0x07, 0x92)` or `(0x07, 0x8f)`, for which the mismatch is tolerated (with
a successful status byte the response is returned). -/
theorem c1_ensure_matches_correlation (resp req : Packet) :
    (∀ r, resp.ensure_matches_report req = Except.ok r →
      (req.command_class, req.command_id, req.id) =
        (resp.command_class, resp.command_id, resp.id)) ∧
    ((req.command_class, req.command_id, req.id) ≠
        (resp.command_class, resp.command_id, resp.id) →
      resp.ensure_matches_report req = Except.error Err.responseMismatch) ∧
    ((req.command_class, req.command_id, req.id) =
        (resp.command_class, resp.command_id, resp.id) →
      resp.remaining_packets ≠ req.remaining_packets →
      (resp.command_class, resp.command_id) ≠ (0x07, 0x92) →
      (resp.command_class, resp.command_id) ≠ (0x07, 0x8f) →
      resp.ensure_matches_report req = Except.error Err.responseMismatch) ∧
    ((req.command_class, req.command_id, req.id) =
        (resp.command_class, resp.command_id, resp.id) →
      ((resp.command_class, resp.command_id) = (0x07, 0x92) ∨
        (resp.command_class, resp.command_id) = (0x07, 0x8f)) →
      resp.status = CommandStatus.Successful →
      resp.ensure_matches_report req = Except.ok resp) := by
  unfold Packet.ensure_matches_report
  refine ⟨fun r h => ?_, fun h => ?_, fun h1 h2 h3 h4 => ?_, fun h1 h2 h3 => ?_⟩
  · split_ifs at h <;> simp_all
  · split_ifs <;> simp_all
  · split_ifs <;> simp_all <;> tauto
  · split_ifs <;> simp_all

/-- Witness for C1: a response whose id differs from the request's is
rejected with ResponseMismatch. -/
theorem c1_witness :
    Packet.ensure_matches_report (mkResponse 2 1 0x0d 0x82 0 [0, 1, 0, 0])
      (mkResponse 0 2 0x0d 0x82 0 [0, 1, 0, 0]) =
      Except.error Err.responseMismatch :=
  (c1_ensure_matches_correlation (mkResponse 2 1 0x0d 0x82 0 [0, 1, 0, 0])
    (mkResponse 0 2 0x0d 0x82 0 [0, 1, 0, 0])).2.1 (by decide)

/-- C8: `Packet::new` fails (the copy into the 80-byte args buffer is out of
bounds, modelled as `none`) whenever more than 80 argument bytes are given. -/
theorem c8_new_rejects_oversized (command : Nat) (args : List Nat) (id : Nat)
    (h : 80 < args.length) :
    Packet.new command args id = none := by
  unfold Packet.new
  rw [if_neg]
  omega

/-- Witness for C8 at 81 argument bytes. -/
theorem c8_witness : Packet.new 0x0d02 (List.replicate 81 0) 0 = none :=
  c8_new_rejects_oversized 0x0d02 (List.replicate 81 0) 0 (by decide)

/-- C9 counterexample: on a device whose descriptor declares no features at
all, `get_setting(PerfMode)` still issues a `0x0d82` read (USB traffic) and
does not fail with FeatureNotSupported: the perf/boost/fan/max-fan-speed
arms of `get_setting` are not feature-gated. -/
theorem c9_counterexample :
    BladeDevice.get_setting [] Setting.PerfMode ⟨[], []⟩ =
      (Except.error Err.scriptEnded, ⟨[], [⟨cmd.GET_PERF_MODE, [0, 1, 0, 0]⟩]⟩) ∧
    (BladeDevice.get_setting [] Setting.PerfMode ⟨[], []⟩).2.trace ≠ [] ∧
    (BladeDevice.get_setting [] Setting.PerfMode ⟨[], []⟩).1 ≠
      Except.error (Err.featureNotSupported "perf") := by
  decide

/-- C9 amended: exactly the four gated settings (keyboard brightness, logo
mode, battery care, lights always on) fail with FeatureNotSupported of their
tag, with no USB traffic, when the tag is not declared in the descriptor's
feature set. -/
theorem c9_amended_gated_settings (features : List String) (setting : Setting)
    (tag : String) (hg : setting.gatedTag = some tag) (hn : tag ∉ features)
    (st : DeviceST) :
    BladeDevice.get_setting features setting st =
      (Except.error (Err.featureNotSupported tag), st) := by
  cases setting <;> simp_all [Setting.gatedTag, BladeDevice.get_setting, M.fail]

/-- Witness for the amended C9: keyboard brightness on a device declaring
only the fan feature. -/
theorem c9_amended_witness :
    BladeDevice.get_setting ["fan"] Setting.KeyboardBrightness ⟨[], []⟩ =
      (Except.error (Err.featureNotSupported "kbd-backlight"), ⟨[], []⟩) :=
  c9_amended_gated_settings ["fan"] Setting.KeyboardBrightness "kbd-backlight"
    (by decide) (by decide) ⟨[], []⟩

theorem get_perf_mode_run (r1 r2 : Packet) (p1 p2 : PerfMode × FanMode)
    (h1 : decodeZone r1 = Except.ok p1) (h2 : decodeZone r2 = Except.ok p2)
    (rest : List (Except Err Packet)) (tr : List Sent) :
    get_perf_mode ⟨Except.ok r1 :: Except.ok r2 :: rest, tr⟩ =
      ((if p1 = p2 then Except.ok p1 else Except.error Err.preconditionFailed),
        ⟨rest, tr ++ [⟨cmd.GET_PERF_MODE, [0, 1, 0, 0]⟩, ⟨cmd.GET_PERF_MODE, [0, 2, 0, 0]⟩]⟩) := by
  simp [get_perf_mode, M.bind, Device.send, M.ofExcept, h1, h2, M.pure, M.fail]
  split_ifs <;> rfl

theorem get_perf_mode_trace (st : DeviceST) :
    ∃ ext, (get_perf_mode st).2.trace = st.trace ++ ext ∧
      ∀ e ∈ ext, e.command = cmd.GET_PERF_MODE := by
  obtain ⟨script, tr⟩ := st
  rcases script with _ | ⟨x, script1⟩
  · exact ⟨[⟨cmd.GET_PERF_MODE, [0, 1, 0, 0]⟩],
      by simp [get_perf_mode, M.bind, Device.send], by simp⟩
  rcases x with e | r1
  · exact ⟨[⟨cmd.GET_PERF_MODE, [0, 1, 0, 0]⟩],
      by simp [get_perf_mode, M.bind, Device.send], by simp⟩
  rcases hdz : decodeZone r1 with e | p1
  · exact ⟨[⟨cmd.GET_PERF_MODE, [0, 1, 0, 0]⟩],
      by simp [get_perf_mode, M.bind, Device.send, M.ofExcept, hdz], by simp⟩
  rcases script1 with _ | ⟨y, script2⟩
  · exact ⟨[⟨cmd.GET_PERF_MODE, [0, 1, 0, 0]⟩, ⟨cmd.GET_PERF_MODE, [0, 2, 0, 0]⟩],
      by simp [get_perf_mode, M.bind, Device.send, M.ofExcept, hdz], by simp⟩
  rcases y with e | r2
  · exact ⟨[⟨cmd.GET_PERF_MODE, [0, 1, 0, 0]⟩, ⟨cmd.GET_PERF_MODE, [0, 2, 0, 0]⟩],
      by simp [get_perf_mode, M.bind, Device.send, M.ofExcept, hdz], by simp⟩
  rcases hdz2 : decodeZone r2 with e | p2
  · exact ⟨[⟨cmd.GET_PERF_MODE, [0, 1, 0, 0]⟩, ⟨cmd.GET_PERF_MODE, [0, 2, 0, 0]⟩],
      by simp [get_perf_mode, M.bind, Device.send, M.ofExcept, hdz, hdz2], by simp⟩
  · refine ⟨[⟨cmd.GET_PERF_MODE, [0, 1, 0, 0]⟩, ⟨cmd.GET_PERF_MODE, [0, 2, 0, 0]⟩], ?_, by simp⟩
    simp [get_perf_mode, M.bind, Device.send, M.ofExcept, hdz, hdz2, M.pure, M.fail]
    split_ifs <;> rfl

theorem set_boost_traffic_gate (cluster : Cluster) (boost : Nat) (st : DeviceST)
    (h : ∃ e ∈ (set_boost_internal cluster boost st).2.trace.drop st.trace.length,
      e.command = cmd.SET_BOOST) :
    (get_perf_mode st).1 = Except.ok (PerfMode.Custom, FanMode.Auto) := by
  obtain ⟨ext, hext, hall⟩ := get_perf_mode_trace st
  rcases hgp : get_perf_mode st with ⟨res, st1⟩
  rw [hgp] at hext
  simp only at hext
  rcases res with e | p
  · exfalso
    obtain ⟨e', he', hcmd⟩ := h
    have hst : (set_boost_internal cluster boost st).2 = st1 := by
      simp [set_boost_internal, M.bind, hgp]
    rw [hst, hext, List.drop_left] at he'
    have := hall e' he'
    rw [this] at hcmd
    simp [cmd.GET_PERF_MODE, cmd.SET_BOOST] at hcmd
  · by_cases hpc : p = (PerfMode.Custom, FanMode.Auto)
    · simp [hgp, hpc]
    · exfalso
      obtain ⟨e', he', hcmd⟩ := h
      have hst : (set_boost_internal cluster boost st).2 = st1 := by
        simp [set_boost_internal, M.bind, hgp, hpc, M.fail]
      rw [hst, hext, List.drop_left] at he'
      have := hall e' he'
      rw [this] at hcmd
      simp [cmd.GET_PERF_MODE, cmd.SET_BOOST] at hcmd

/-- C4: with a scripted pair of successful responses to the two `0x0d82`
zone reads, `get_perf_mode` sends `0x0d82` with args `[0, zone, 0, 0]` for
zones 1 and 2 in that order, decodes `args[2]`/`args[3]` of each response,
fails with the precondition error when the two decoded pairs differ, and
returns the common pair when they agree. -/
theorem c4_get_perf_mode_zone_agreement (r1 r2 : Packet) (p1 p2 : PerfMode × FanMode)
    (h1 : decodeZone r1 = Except.ok p1) (h2 : decodeZone r2 = Except.ok p2)
    (tr : List Sent) :
    get_perf_mode ⟨[Except.ok r1, Except.ok r2], tr⟩ =
      ((if p1 = p2 then Except.ok p1 else Except.error Err.preconditionFailed),
        ⟨[], tr ++ [⟨cmd.GET_PERF_MODE, [0, 1, 0, 0]⟩, ⟨cmd.GET_PERF_MODE, [0, 2, 0, 0]⟩]⟩) :=
  get_perf_mode_run r1 r2 p1 p2 h1 h2 [] tr

/-- Witness for C4: two zone responses decoding to `(Balanced, Auto)` and
`(Silent, Auto)` make `get_perf_mode` fail with the precondition error. -/
theorem c4_witness :
    get_perf_mode ⟨[Except.ok (zoneResponse PerfMode.Balanced FanMode.Auto),
        Except.ok (zoneResponse PerfMode.Silent FanMode.Auto)], []⟩ =
      ((if ((PerfMode.Balanced, FanMode.Auto) : PerfMode × FanMode) =
          (PerfMode.Silent, FanMode.Auto) then
        Except.ok (PerfMode.Balanced, FanMode.Auto) else Except.error Err.preconditionFailed),
        ⟨[], [⟨cmd.GET_PERF_MODE, [0, 1, 0, 0]⟩, ⟨cmd.GET_PERF_MODE, [0, 2, 0, 0]⟩]⟩) :=
  c4_get_perf_mode_zone_agreement (zoneResponse PerfMode.Balanced FanMode.Auto)
    (zoneResponse PerfMode.Silent FanMode.Auto) (PerfMode.Balanced, FanMode.Auto)
    (PerfMode.Silent, FanMode.Auto) (by decide) (by decide) []

/-- C5: `set_fan_rpm` fails with the precondition error before any transport
call when the RPM is outside `[2000, 5000]`; in range with the mode reading
back `(Balanced, Manual)` it issues exactly two `0x0d01` packets with args
`[0, 1, rpm/100]` then `[0, 2, rpm/100]` after the two `0x0d82` reads; in
range with any other mode it fails with the precondition error and issues no
`0x0d01` packet. -/
theorem c5_set_fan_rpm_contract :
    (∀ (rpm : Nat) (st : DeviceST), rpm < 2000 ∨ 5000 < rpm →
      set_fan_rpm rpm st = (Except.error Err.preconditionFailed, st)) ∧
    (∀ (rpm : Nat) (r1 r2 e1 e2 : Packet) (l1 l2 : List Nat) (tr : List Sent),
      2000 ≤ rpm → rpm ≤ 5000 →
      decodeZone r1 = Except.ok (PerfMode.Balanced, FanMode.Manual) →
      decodeZone r2 = Except.ok (PerfMode.Balanced, FanMode.Manual) →
      e1.get_args = some l1 → [0, 1, rpm / 100].isPrefixOf l1 = true →
      e2.get_args = some l2 → [0, 2, rpm / 100].isPrefixOf l2 = true →
      set_fan_rpm rpm ⟨[Except.ok r1, Except.ok r2, Except.ok e1, Except.ok e2], tr⟩ =
        (Except.ok (),
          ⟨[], tr ++ [⟨cmd.GET_PERF_MODE, [0, 1, 0, 0]⟩, ⟨cmd.GET_PERF_MODE, [0, 2, 0, 0]⟩,
            ⟨cmd.SET_FAN_RPM, [0, 1, rpm / 100]⟩, ⟨cmd.SET_FAN_RPM, [0, 2, rpm / 100]⟩]⟩)) ∧
    (∀ (rpm : Nat) (p : PerfMode × FanMode) (r1 r2 : Packet)
      (rest : List (Except Err Packet)) (tr : List Sent),
      2000 ≤ rpm → rpm ≤ 5000 →
      decodeZone r1 = Except.ok p → decodeZone r2 = Except.ok p →
      p ≠ (PerfMode.Balanced, FanMode.Manual) →
      set_fan_rpm rpm ⟨Except.ok r1 :: Except.ok r2 :: rest, tr⟩ =
        (Except.error Err.preconditionFailed,
          ⟨rest, tr ++ [⟨cmd.GET_PERF_MODE, [0, 1, 0, 0]⟩,
            ⟨cmd.GET_PERF_MODE, [0, 2, 0, 0]⟩]⟩)) := by
  refine ⟨?_, ?_, ?_⟩
  · intro rpm st hout
    unfold set_fan_rpm
    rw [if_neg (by omega)]
    rfl
  · intro rpm r1 r2 e1 e2 l1 l2 tr hge hle h1 h2 he1 hp1 he2 hp2
    have hmod : rpm / 100 % 256 = rpm / 100 := by omega
    unfold set_fan_rpm
    rw [if_pos ⟨hge, hle⟩]
    simp only [M.bind]
    rw [get_perf_mode_run r1 r2 _ _ h1 h2]
    simp only [if_pos rfl, FanZone.toByte, hmod]
    simp [send_command, M.bind, Device.send, he1, he2, hp1, hp2, M.pure]
  · intro rpm p r1 r2 rest tr hge hle h1 h2 hne
    unfold set_fan_rpm
    rw [if_pos ⟨hge, hle⟩]
    simp only [M.bind]
    rw [get_perf_mode_run r1 r2 _ _ h1 h2]
    simp [hne, M.fail]

/-- Witness for C5: rejection at 1999 RPM with no traffic; the exact two
`0x0d01` packets at 2500 RPM under `(Balanced, Manual)`; rejection with only
the `0x0d82` probes under `(Silent, Auto)`. -/
theorem c5_witness :
    set_fan_rpm 1999 ⟨[], []⟩ = (Except.error Err.preconditionFailed, ⟨[], []⟩) ∧
    set_fan_rpm 2500 ⟨[Except.ok (zoneResponse PerfMode.Balanced FanMode.Manual),
        Except.ok (zoneResponse PerfMode.Balanced FanMode.Manual),
        Except.ok (echoResponse 0x0d 0x01 [0, 1, 25]),
        Except.ok (echoResponse 0x0d 0x01 [0, 2, 25])], []⟩ =
      (Except.ok (),
        ⟨[], [⟨cmd.GET_PERF_MODE, [0, 1, 0, 0]⟩, ⟨cmd.GET_PERF_MODE, [0, 2, 0, 0]⟩,
          ⟨cmd.SET_FAN_RPM, [0, 1, 25]⟩, ⟨cmd.SET_FAN_RPM, [0, 2, 25]⟩]⟩) ∧
    set_fan_rpm 3000 ⟨[Except.ok (zoneResponse PerfMode.Silent FanMode.Auto),
        Except.ok (zoneResponse PerfMode.Silent FanMode.Auto)], []⟩ =
      (Except.error Err.preconditionFailed,
        ⟨[], [⟨cmd.GET_PERF_MODE, [0, 1, 0, 0]⟩, ⟨cmd.GET_PERF_MODE, [0, 2, 0, 0]⟩]⟩) :=
  ⟨c5_set_fan_rpm_contract.1 1999 ⟨[], []⟩ (Or.inl (by decide)),
    c5_set_fan_rpm_contract.2.1 2500 (zoneResponse PerfMode.Balanced FanMode.Manual)
      (zoneResponse PerfMode.Balanced FanMode.Manual)
      (echoResponse 0x0d 0x01 [0, 1, 25]) (echoResponse 0x0d 0x01 [0, 2, 25])
      [0, 1, 25] [0, 2, 25] [] (by decide) (by decide) (by decide) (by decide)
      (by decide) (by decide) (by decide) (by decide),
    c5_set_fan_rpm_contract.2.2 3000 (PerfMode.Silent, FanMode.Auto)
      (zoneResponse PerfMode.Silent FanMode.Auto)
      (zoneResponse PerfMode.Silent FanMode.Auto) [] [] (by decide) (by decide)
      (by decide) (by decide) (by decide)⟩

/-- C6: `set_cpu_boost`/`set_gpu_boost` go through `set_boost_internal`,
which fails with the precondition error and issues no `0x0d07` packet when
the preflight `get_perf_mode` read returns anything other than
`(Custom, Auto)`; conversely a `0x0d07` packet is issued only when the
preflight read on the same script returned `(Custom, Auto)`. -/
theorem c6_boost_requires_custom_auto :
    (∀ b : CpuBoost, set_cpu_boost b = set_boost_internal Cluster.Cpu b.toByte) ∧
    (∀ b : GpuBoost, set_gpu_boost b = set_boost_internal Cluster.Gpu b.toByte) ∧
    (∀ (cluster : Cluster) (boost : Nat) (p : PerfMode × FanMode) (r1 r2 : Packet)
      (rest : List (Except Err Packet)) (tr : List Sent),
      decodeZone r1 = Except.ok p → decodeZone r2 = Except.ok p →
      p ≠ (PerfMode.Custom, FanMode.Auto) →
      set_boost_internal cluster boost ⟨Except.ok r1 :: Except.ok r2 :: rest, tr⟩ =
        (Except.error Err.preconditionFailed,
          ⟨rest, tr ++ [⟨cmd.GET_PERF_MODE, [0, 1, 0, 0]⟩,
            ⟨cmd.GET_PERF_MODE, [0, 2, 0, 0]⟩]⟩)) ∧
    (∀ (cluster : Cluster) (boost : Nat) (st : DeviceST),
      (∃ e ∈ (set_boost_internal cluster boost st).2.trace.drop st.trace.length,
        e.command = cmd.SET_BOOST) →
      (get_perf_mode st).1 = Except.ok (PerfMode.Custom, FanMode.Auto)) := by
  refine ⟨fun _ => rfl, fun _ => rfl, ?_, set_boost_traffic_gate⟩
  intro cluster boost p r1 r2 rest tr h1 h2 hne
  unfold set_boost_internal
  simp only [M.bind]
  rw [get_perf_mode_run r1 r2 _ _ h1 h2]
  simp [hne, M.fail]

/-- Witness for C6: a `(Balanced, Auto)` preflight makes `set_boost_internal`
fail without boost traffic, and a script on which the boost command does go
out has a `(Custom, Auto)` preflight. -/
theorem c6_witness :
    set_boost_internal Cluster.Cpu 0 ⟨[Except.ok (zoneResponse PerfMode.Balanced FanMode.Auto),
        Except.ok (zoneResponse PerfMode.Balanced FanMode.Auto)], []⟩ =
      (Except.error Err.preconditionFailed,
        ⟨[], [⟨cmd.GET_PERF_MODE, [0, 1, 0, 0]⟩, ⟨cmd.GET_PERF_MODE, [0, 2, 0, 0]⟩]⟩) ∧
    (get_perf_mode ⟨[Except.ok (zoneResponse PerfMode.Custom FanMode.Auto),
        Except.ok (zoneResponse PerfMode.Custom FanMode.Auto),
        Except.ok (echoResponse 0x0d 0x07 [0, 1, 0])], []⟩).1 =
      Except.ok (PerfMode.Custom, FanMode.Auto) :=
  ⟨c6_boost_requires_custom_auto.2.2.1 Cluster.Cpu 0 (PerfMode.Balanced, FanMode.Auto)
      (zoneResponse PerfMode.Balanced FanMode.Auto)
      (zoneResponse PerfMode.Balanced FanMode.Auto) [] [] (by decide) (by decide)
      (by decide),
    c6_boost_requires_custom_auto.2.2.2 Cluster.Cpu 0
      ⟨[Except.ok (zoneResponse PerfMode.Custom FanMode.Auto),
        Except.ok (zoneResponse PerfMode.Custom FanMode.Auto),
        Except.ok (echoResponse 0x0d 0x07 [0, 1, 0])], []⟩ (by decide)⟩

/-- C7: `set_logo_mode(Off)` issues exactly one packet, `0x0300` with args
`[1, 4, 0]` (on every script); `set_logo_mode(Breathing)` issues `0x0302`
`[1, 4, 2]` then `0x0300` `[1, 4, 1]` in that order; `set_logo_mode(Static)`
issues `0x0302` `[1, 4, 0]` then `0x0300` `[1, 4, 1]` in that order. -/
theorem c7_set_logo_mode_traffic :
    (∀ st : DeviceST, (set_logo_mode LogoMode.Off st).2.trace =
      st.trace ++ [⟨cmd.SET_LOGO_POWER, [1, 4, 0]⟩]) ∧
    (∀ (r : Packet) (l : List Nat) (rest : List (Except Err Packet)) (tr : List Sent),
      r.get_args = some l → [1, 4, 2].isPrefixOf l = true →
      (set_logo_mode LogoMode.Breathing ⟨Except.ok r :: rest, tr⟩).2.trace =
        tr ++ [⟨cmd.SET_LOGO_MODE, [1, 4, 2]⟩, ⟨cmd.SET_LOGO_POWER, [1, 4, 1]⟩]) ∧
    (∀ (r : Packet) (l : List Nat) (rest : List (Except Err Packet)) (tr : List Sent),
      r.get_args = some l → [1, 4, 0].isPrefixOf l = true →
      (set_logo_mode LogoMode.Static ⟨Except.ok r :: rest, tr⟩).2.trace =
        tr ++ [⟨cmd.SET_LOGO_MODE, [1, 4, 0]⟩, ⟨cmd.SET_LOGO_POWER, [1, 4, 1]⟩]) := by
  refine ⟨?_, ?_, ?_⟩
  · intro st
    obtain ⟨script, tr⟩ := st
    rcases script with _ | ⟨x, rest⟩
    · simp [set_logo_mode, set_logo_power, send_command, M.bind, Device.send, M.fail]
    rcases x with e | r
    · simp [set_logo_mode, set_logo_power, send_command, M.bind, Device.send, M.fail]
    rcases hg : r.get_args with _ | l
    · simp [set_logo_mode, set_logo_power, send_command, M.bind, Device.send, M.fail, hg]
    · simp [set_logo_mode, set_logo_power, send_command, M.bind, Device.send, M.fail,
        M.pure, hg]
      split_ifs <;> rfl
  · intro r l rest tr hg hp
    rcases rest with _ | ⟨y, rest2⟩
    · simp [set_logo_mode, set_logo_mode_internal, set_logo_power, send_command, M.bind,
        Device.send, M.fail, M.pure, hg, hp]
    rcases y with e | r2
    · simp [set_logo_mode, set_logo_mode_internal, set_logo_power, send_command, M.bind,
        Device.send, M.fail, M.pure, hg, hp]
    rcases hg2 : r2.get_args with _ | l2
    · simp [set_logo_mode, set_logo_mode_internal, set_logo_power, send_command, M.bind,
        Device.send, M.fail, M.pure, hg, hp, hg2]
    · simp [set_logo_mode, set_logo_mode_internal, set_logo_power, send_command, M.bind,
        Device.send, M.fail, M.pure, hg, hp, hg2]
      split_ifs <;> rfl
  · intro r l rest tr hg hp
    rcases rest with _ | ⟨y, rest2⟩
    · simp [set_logo_mode, set_logo_mode_internal, set_logo_power, send_command, M.bind,
        Device.send, M.fail, M.pure, hg, hp]
    rcases y with e | r2
    · simp [set_logo_mode, set_logo_mode_internal, set_logo_power, send_command, M.bind,
        Device.send, M.fail, M.pure, hg, hp]
    rcases hg2 : r2.get_args with _ | l2
    · simp [set_logo_mode, set_logo_mode_internal, set_logo_power, send_command, M.bind,
        Device.send, M.fail, M.pure, hg, hp, hg2]
    · simp [set_logo_mode, set_logo_mode_internal, set_logo_power, send_command, M.bind,
        Device.send, M.fail, M.pure, hg, hp, hg2]
      split_ifs <;> rfl

/-- Witness for C7: the Breathing and Static sequences on echoing scripts. -/
theorem c7_witness :
    (set_logo_mode LogoMode.Breathing
        ⟨[Except.ok (echoResponse 0x03 0x02 [1, 4, 2])], []⟩).2.trace =
      [⟨cmd.SET_LOGO_MODE, [1, 4, 2]⟩, ⟨cmd.SET_LOGO_POWER, [1, 4, 1]⟩] ∧
    (set_logo_mode LogoMode.Static
        ⟨[Except.ok (echoResponse 0x03 0x02 [1, 4, 0])], []⟩).2.trace =
      [⟨cmd.SET_LOGO_MODE, [1, 4, 0]⟩, ⟨cmd.SET_LOGO_POWER, [1, 4, 1]⟩] :=
  ⟨c7_set_logo_mode_traffic.2.1 (echoResponse 0x03 0x02 [1, 4, 2]) [1, 4, 2] [] []
      (by decide) (by decide),
    c7_set_logo_mode_traffic.2.2 (echoResponse 0x03 0x02 [1, 4, 0]) [1, 4, 0] [] []
      (by decide) (by decide)⟩

/-- C10: deserialization does not enforce `data_size ≤ 80`: `oversizedBytes`
decodes successfully to a packet whose `data_size` is 90, on which
`get_args` is an out-of-bounds slice (modelled as `none`), and a command
layer decode that indexes `get_args()` on such a response — here the
battery-care read — hits that out-of-bounds access. -/
theorem c10_tryFrom_accepts_oversized_data_size :
    Packet.tryFrom oversizedBytes = Except.ok oversizedPacket ∧
    80 < oversizedPacket.data_size ∧
    oversizedPacket.get_args = none ∧
    get_battery_care ⟨[Except.ok oversizedPacket], []⟩ =
      (Except.error Err.panicked, ⟨[], [⟨cmd.GET_BATTERY_CARE, [0]⟩]⟩) := by
  decide

end Razer
